import Mathlib

/-!
Shallow embedding of the FastAPI/Keycloak backend (src/app): the Keycloak
issuer client (auth.py), the authentication middleware (middleware.py), the
login route (main.py) and the RAG inference client with its predict route
(rag.py, main.py).

Outbound HTTP traffic is modelled by oracle values: a `NetOutcome` (for
issuer calls) or `InferOutcome` (for inference calls) describes what the
network did — a response with a status code, text and parsed body, a
timeout, or some other transport exception. The local unverified JWT decode
performed by the middleware (library call `jwt.decode` with signature
verification disabled) is modelled by an oracle function returning the set
of claim keys, or `none` when the decode raises `InvalidTokenError`.
HTTP exceptions raised by the Python code are modelled as `Except` errors
carrying status code and detail string.
-/

namespace RagService

/-- A FastAPI `HTTPException`: status code plus detail string. -/
structure HTTPError where
  statusCode : Nat
  detail : String
deriving DecidableEq, Repr

/-- Claims returned by the Keycloak userinfo endpoint (`user_info`). -/
structure UserInfo where
  preferred_username : String
deriving DecidableEq, Repr

/-- A token payload returned by the Keycloak token endpoint:
`access_token` and `refresh_token` fields of the parsed JSON. -/
structure TokenPair where
  access_token : String
  refresh_token : String
deriving DecidableEq, Repr

/-- Outcome of one outbound issuer HTTP call, as seen by the client code:
a response (status code, body text, parsed JSON body for the 200 case),
an `httpx.TimeoutException`, or any other exception. -/
inductive NetOutcome (α : Type) where
  | response (statusCode : Nat) (text : String) (body : α)
  | timeout
  | otherExn (msg : String)
deriving DecidableEq, Repr

/-- A record of one outbound request made to the identity provider. -/
inductive IssuerCall where
  | passwordGrant (username password : String)
  | introspect (authHeaderValue : String)
  | refreshGrant (refreshToken : String)
deriving DecidableEq, Repr

/-- `KeycloakAuth.authenticate_user` (auth.py lines 20-71): password-grant
login. 200 → parsed tokens; other status → HTTPException carrying the
provider status (passthrough); timeout → 504; other exception → 500. -/
def authenticate_user (username password : String) (net : NetOutcome TokenPair) :
    Except HTTPError TokenPair :=
  match username, password, net with
  | _, _, NetOutcome.response s t tokens =>
      if s = 200 then Except.ok tokens
      else Except.error ⟨s, "Authentication failed: " ++ t⟩
  | _, _, NetOutcome.timeout =>
      Except.error ⟨504, "Authentication request timed out"⟩
  | _, _, NetOutcome.otherExn m =>
      Except.error ⟨500, "Unexpected error during authentication: " ++ m⟩

/-- `KeycloakAuth.validate_token` (auth.py lines 73-126): rejects the empty
token with 401 before any network traffic; otherwise performs one GET on
the userinfo endpoint with the token as bearer credential. 200 → claims;
401 → 401 invalid-or-expired; other status → 500; timeout → 504; other
exception → 500. The second component records the outbound calls made. -/
def validate_token (token : String) (net : NetOutcome UserInfo) :
    Except HTTPError UserInfo × List IssuerCall :=
  if token = "" then
    (Except.error ⟨401, "No token provided"⟩, [])
  else
    (match net with
     | NetOutcome.response s _ u =>
         if s = 200 then Except.ok u
         else if s = 401 then Except.error ⟨401, "Invalid or expired token"⟩
         else Except.error ⟨500, "Token validation failed"⟩
     | NetOutcome.timeout =>
         Except.error ⟨504, "Token validation request timed out"⟩
     | NetOutcome.otherExn _ =>
         Except.error ⟨500, "Token validation failed"⟩,
     [IssuerCall.introspect ("Bearer " ++ token)])

/-- `KeycloakAuth.refresh_token` (auth.py lines 128-178): refresh-grant
exchange. 200 → new token pair; other status → 401 with the provider body
in the detail; timeout → 504; other exception → 500. The second component
records the outbound calls made. -/
def refresh_token (refreshToken : String) (net : NetOutcome TokenPair) :
    Except HTTPError TokenPair × List IssuerCall :=
  (match net with
   | NetOutcome.response s t tokens =>
       if s = 200 then Except.ok tokens
       else Except.error ⟨401, "Token refresh failed: " ++ t⟩
   | NetOutcome.timeout =>
       Except.error ⟨504, "Token refresh request timed out"⟩
   | NetOutcome.otherExn m =>
       Except.error ⟨500, "Unexpected error during token refresh: " ++ m⟩,
   [IssuerCall.refreshGrant refreshToken])

/-- One `Set-Cookie` emitted via Starlette `set_cookie`: key, value, and
the flags the source passes (`httponly`, `secure`, `samesite`, `max_age`;
`max_age := none` when the call omits the argument). -/
structure SetCookie where
  key : String
  value : String
  httponly : Bool
  secure : Bool
  samesite : String
  maxAge : Option Nat
deriving DecidableEq, Repr

/-- An HTTP response as the middleware sees it: mutable header map,
cookies appended by `set_cookie`, and an opaque body. -/
structure Response where
  headers : List (String × String)
  cookies : List SetCookie
  body : String
deriving DecidableEq, Repr

/-- Dict-style header assignment (`response.headers[k] = v`): replaces an
existing entry for the key, otherwise appends one. -/
def setHeader (hs : List (String × String)) (k v : String) :
    List (String × String) :=
  if hs.any (fun p => p.1 = k) then
    hs.map (fun p => if p.1 = k then (k, v) else p)
  else hs ++ [(k, v)]

/-- The space character, the separator of `str.split` in middleware.py
line 41. -/
def spaceChar : Char := Char.ofNat 32

/-- Character-list core of Python `str.startswith`. -/
def startsWithAux : List Char → List Char → Bool
  | _, [] => true
  | [], _ :: _ => false
  | c :: cs, p :: ps => c = p && startsWithAux cs ps

/-- Models Python `str.startswith` (middleware.py line 34). -/
def pyStartsWith (s pre : String) : Bool :=
  startsWithAux s.data pre.data

/-- Models Python `str.split` with the explicit single-space separator:
splits at every space and keeps empty fields (so a trailing separator
yields a trailing empty field). Accumulator holds the current field
reversed. -/
def splitSpacesAux : List Char → List Char → List (List Char)
  | [], acc => [acc.reverse]
  | c :: cs, acc =>
      if c = spaceChar then acc.reverse :: splitSpacesAux cs []
      else splitSpacesAux cs (c :: acc)

/-- Python `s.split(" ")` on a Lean string. -/
def pySplitSpace (s : String) : List String :=
  (splitSpacesAux s.data []).map (fun cs => String.mk cs)

/-- middleware.py line 41: `token = auth_header.split(" ")[1]`. The index
is in range whenever the header starts with the bearer scheme; out of
range defaults to the empty string. -/
def extractToken (authHeader : String) : String :=
  (pySplitSpace authHeader).getD 1 ""

/-- The middleware allow-list (middleware.py line 14). -/
def exclude_paths : List String := ["/login", "/docs", "/openapi.json", "/redoc"]

/-- The parts of an inbound request the middleware reads: URL path, the
`Authorization` header (if present) and the `refresh_token` cookie (if
present). -/
structure Request where
  path : String
  authorizationHeader : Option String
  refreshCookie : Option String
deriving DecidableEq, Repr

/-- Environment of one `dispatch` evaluation: what the network does on the
validate call and on the refresh call, the local unverified JWT decode
(claim keys, `none` on `InvalidTokenError`), and the response produced by
the wrapped handler (`call_next`). -/
structure DispatchEnv where
  validateNet : NetOutcome UserInfo
  decodeClaims : String → Option (List String)
  refreshNet : NetOutcome TokenPair
  handlerResponse : Response

instance decEqExcept {ε α : Type} [DecidableEq ε] [DecidableEq α] :
    DecidableEq (Except ε α) := fun x y =>
  match x, y with
  | Except.ok a, Except.ok b =>
      if h : a = b then isTrue (by rw [h]) else isFalse (by simp [h])
  | Except.ok _, Except.error _ => isFalse (by simp)
  | Except.error _, Except.ok _ => isFalse (by simp)
  | Except.error e, Except.error f =>
      if h : e = f then isTrue (by rw [h]) else isFalse (by simp [h])

/-- Observable outcome of one `AuthMiddleware.dispatch` run: the returned
response or raised HTTPException, the outbound issuer calls made, and one
entry per execution of the wrapped handler recording the value of
`request.state.user` at the moment the handler runs (`none` when the
attribute was never assigned). -/
structure DispatchResult where
  result : Except HTTPError Response
  issuerCalls : List IssuerCall
  handlerRuns : List (Option UserInfo)
deriving DecidableEq, Repr

/-- `AuthMiddleware.dispatch` (middleware.py lines 16-114). Control flow:
exempt path → forward unchanged; missing header → 401; non-bearer header
→ 401; else extract the token, validate; on success attach the user info
to request state and forward; on validation failure decode the token
locally — decode failure → 401 invalid-token-format; claims without
`exp` → re-raise the original validation error; claims with `exp` and no
refresh cookie → 401; otherwise refresh — on refresh success run the
handler and rewrite its response (new Authorization header, new refresh
cookie with no max-age), on refresh failure → 401. -/
def dispatch (env : DispatchEnv) (req : Request) : DispatchResult :=
  if req.path ∈ exclude_paths then
    { result := Except.ok env.handlerResponse, issuerCalls := [],
      handlerRuns := [none] }
  else
    match req.authorizationHeader with
    | none =>
        { result := Except.error ⟨401, "Missing authorization header"⟩,
          issuerCalls := [], handlerRuns := [] }
    | some authHeader =>
      if pyStartsWith authHeader "Bearer " then
        let token := extractToken authHeader
        match validate_token token env.validateNet with
        | (Except.ok userInfo, vcalls) =>
            { result := Except.ok env.handlerResponse,
              issuerCalls := vcalls, handlerRuns := [some userInfo] }
        | (Except.error e, vcalls) =>
            match env.decodeClaims token with
            | none =>
                { result := Except.error ⟨401, "Invalid token format"⟩,
                  issuerCalls := vcalls, handlerRuns := [] }
            | some claims =>
                if "exp" ∈ claims then
                  match req.refreshCookie with
                  | none =>
                      { result := Except.error
                          ⟨401, "Token expired and no refresh token available"⟩,
                        issuerCalls := vcalls, handlerRuns := [] }
                  | some refreshTok =>
                      match refresh_token refreshTok env.refreshNet with
                      | (Except.ok newTokens, rcalls) =>
                          { result := Except.ok
                              { headers := setHeader env.handlerResponse.headers
                                  "Authorization"
                                  ("Bearer " ++ newTokens.access_token),
                                cookies := env.handlerResponse.cookies ++
                                  [⟨"refresh_token", newTokens.refresh_token,
                                    true, true, "strict", none⟩],
                                body := env.handlerResponse.body },
                            issuerCalls := vcalls ++ rcalls,
                            handlerRuns := [none] }
                      | (Except.error _, rcalls) =>
                          { result := Except.error
                              ⟨401, "Token expired and refresh failed"⟩,
                            issuerCalls := vcalls ++ rcalls,
                            handlerRuns := [] }
                else
                  { result := Except.error e, issuerCalls := vcalls,
                    handlerRuns := [] }
      else
        { result := Except.error
            ⟨401, "Invalid authorization header format. Expected \x27Bearer <token>\x27"⟩,
          issuerCalls := [], handlerRuns := [] }

/-- Response of the login route: JSON body with the token payload, plus
the cookies set on it. -/
structure LoginResponse where
  body : TokenPair
  cookies : List SetCookie
deriving DecidableEq, Repr

/-- The `login` route handler (main.py lines 53-81): authenticate, then
return the token payload with the refresh token in a cookie marked
http-only, secure, same-site-strict, max-age 1800. HTTPExceptions from the
client pass through. -/
def login (username password : String) (net : NetOutcome TokenPair) :
    Except HTTPError LoginResponse :=
  match authenticate_user username password net with
  | Except.error e => Except.error e
  | Except.ok tokens =>
      Except.ok
        { body := tokens,
          cookies := [⟨"refresh_token", tokens.refresh_token,
                       true, true, "strict", some 1800⟩] }

/-- Outcome of one outbound inference HTTP call: response, connect error,
timeout, other request error, or any other exception — matching the
`except` ladder in rag.py. -/
inductive InferOutcome (α : Type) where
  | response (statusCode : Nat) (text : String) (body : α)
  | connectError (msg : String)
  | timeout
  | requestError (msg : String)
  | otherExn (msg : String)
deriving DecidableEq, Repr

/-- `RAGPipeline.predict` (rag.py lines 20-86): missing or empty API key →
500 before any call; 200 → parsed body; non-200 → HTTPException carrying
the provider status (passthrough); connect error → 503; timeout → 504;
other request error → 503; other exception → 500. -/
def rag_predict {α : Type} (apiKey : Option String) (net : InferOutcome α) :
    Except HTTPError α :=
  match apiKey with
  | none => Except.error ⟨500, "HUGGINGFACE_API_KEY not set"⟩
  | some k =>
    if k = "" then Except.error ⟨500, "HUGGINGFACE_API_KEY not set"⟩
    else
      match net with
      | InferOutcome.response s t body =>
          if s = 200 then Except.ok body
          else Except.error
            ⟨s, "Prediction failed with status " ++ toString s ++ ": " ++ t⟩
      | InferOutcome.connectError m =>
          Except.error ⟨503, "Failed to connect to Hugging Face API: " ++ m⟩
      | InferOutcome.timeout =>
          Except.error ⟨504, "Request to Hugging Face API timed out"⟩
      | InferOutcome.requestError m =>
          Except.error ⟨503, "Request to Hugging Face API failed: " ++ m⟩
      | InferOutcome.otherExn m =>
          Except.error ⟨500, "Unexpected error during prediction: " ++ m⟩

/-- Python `str(HTTPException)` (Starlette): the status code, a colon and
the detail. -/
def errorText (e : HTTPError) : String :=
  toString e.statusCode ++ ": " ++ e.detail

/-- The `predict` route handler (main.py lines 83-93): calls the pipeline
and catches every exception — HTTPException included — re-raising a 500
whose detail is the string form of the caught exception. -/
def predict_route {α : Type} (apiKey : Option String) (net : InferOutcome α) :
    Except HTTPError α :=
  match rag_predict apiKey net with
  | Except.ok r => Except.ok r
  | Except.error e => Except.error ⟨500, errorText e⟩

/-! Sample values used by the witness theorems. -/

/-- A plain handler response. -/
def okResponse : Response := { headers := [], cookies := [], body := "ok" }

/-- Sample user claims. -/
def aliceInfo : UserInfo := ⟨"alice"⟩

/-- Sample token payload returned by a refresh. -/
def sampleTokens : TokenPair := ⟨"newacc", "newref"⟩

/-- Environment where every issuer call times out and local decode fails. -/
def baseEnv : DispatchEnv :=
  { validateNet := NetOutcome.timeout,
    decodeClaims := fun _ => none,
    refreshNet := NetOutcome.timeout,
    handlerResponse := okResponse }

/-- Environment where validation succeeds with the sample claims. -/
def validOkEnv : DispatchEnv :=
  { baseEnv with validateNet := NetOutcome.response 200 "" aliceInfo }

/-- Environment where validation fails 401, the token decodes with an exp
claim, and the refresh call succeeds. -/
def refreshScenarioEnv : DispatchEnv :=
  { validateNet := NetOutcome.response 401 "expired" aliceInfo,
    decodeClaims := fun _ => some ["exp"],
    refreshNet := NetOutcome.response 200 "" sampleTokens,
    handlerResponse := okResponse }

/-- As `refreshScenarioEnv` but the refresh call times out. -/
def refreshTimeoutEnv : DispatchEnv :=
  { refreshScenarioEnv with refreshNet := NetOutcome.timeout }

/-- As `refreshScenarioEnv` but validation fails with a provider 503
(a non-expiry-class failure mapped to a 500 by the client). -/
def badGatewayEnv : DispatchEnv :=
  { refreshScenarioEnv with validateNet := NetOutcome.response 503 "upstream down" aliceInfo }

/-- Claim C5: for every request whose path is in the exempt allow-list,
the gate forwards the request unchanged to the next handler (one handler
run, response returned as-is) and makes no issuer call at all. -/
theorem c5_exempt_path_no_issuer_calls (env : DispatchEnv) (req : Request)
    (hpath : req.path ∈ exclude_paths) :
    dispatch env req =
      { result := Except.ok env.handlerResponse, issuerCalls := [],
        handlerRuns := [none] } := by
  simp [dispatch, hpath]

/-- Witness for C5 at the login path. -/
theorem c5_exempt_path_no_issuer_calls_witness :
    "/login" ∈ exclude_paths ∧
    dispatch baseEnv { path := "/login", authorizationHeader := none, refreshCookie := none } =
      { result := Except.ok baseEnv.handlerResponse, issuerCalls := [],
        handlerRuns := [none] } :=
  ⟨by decide, c5_exempt_path_no_issuer_calls baseEnv _ (by decide)⟩

/-- Claim C8: the empty token is rejected 401 with no outbound call, and
every non-empty token is sent to the introspection endpoint as a bearer
credential. -/
theorem c8_validate_empty_rejected_nonempty_introspects
    (token : String) (net : NetOutcome UserInfo) :
    validate_token "" net = (Except.error ⟨401, "No token provided"⟩, []) ∧
    (token ≠ "" →
      (validate_token token net).2 = [IssuerCall.introspect ("Bearer " ++ token)]) := by
  constructor
  · simp [validate_token]
  · intro h
    simp [validate_token, h]

/-- Witness for C8 at token abc against a timing-out provider. -/
theorem c8_validate_empty_rejected_nonempty_introspects_witness :
    validate_token "" NetOutcome.timeout = (Except.error ⟨401, "No token provided"⟩, []) ∧
    ("abc" : String) ≠ "" ∧
    (validate_token "abc" NetOutcome.timeout).2 = [IssuerCall.introspect "Bearer abc"] :=
  ⟨(c8_validate_empty_rejected_nonempty_introspects "abc" NetOutcome.timeout).1,
   by decide,
   (c8_validate_empty_rejected_nonempty_introspects "abc" NetOutcome.timeout).2 (by decide)⟩

/-- Claim C10: a protected-path request whose Authorization header is
exactly the bearer scheme with an empty token passes the header check,
is rejected by validation without any network call, fails the local
decode, and terminates 401 invalid-token-format with no refresh call and
no handler run. The hypothesis on `decodeClaims` pins the library fact
that decoding the empty string raises `InvalidTokenError`. -/
theorem c10_bare_bearer_header_invalid_format (env : DispatchEnv) (req : Request)
    (hpath : req.path ∉ exclude_paths)
    (hauth : req.authorizationHeader = some "Bearer ")
    (hdec : env.decodeClaims "" = none) :
    dispatch env req =
      { result := Except.error ⟨401, "Invalid token format"⟩,
        issuerCalls := [], handlerRuns := [] } := by
  have h1 : pyStartsWith "Bearer " "Bearer " = true := by decide
  have h2 : extractToken "Bearer " = "" := by decide
  simp [dispatch, hpath, hauth, h1, h2, validate_token, hdec]

/-- Witness for C10 on the predict path. -/
theorem c10_bare_bearer_header_invalid_format_witness :
    ("/predict" : String) ∉ exclude_paths ∧
    baseEnv.decodeClaims "" = none ∧
    dispatch baseEnv { path := "/predict", authorizationHeader := some "Bearer ", refreshCookie := none } =
      { result := Except.error ⟨401, "Invalid token format"⟩,
        issuerCalls := [], handlerRuns := [] } :=
  ⟨by decide, rfl,
   c10_bare_bearer_header_invalid_format baseEnv _ (by decide) rfl rfl⟩

/-- Helper: a handler run with a user attached happens only when the
token validation call itself succeeded with exactly those claims. -/
theorem handlerUser_of_dispatch (env : DispatchEnv) (req : Request) (u : UserInfo)
    (hmem : some u ∈ (dispatch env req).handlerRuns) :
    ∃ hdr, req.authorizationHeader = some hdr ∧
      (validate_token (extractToken hdr) env.validateNet).1 = Except.ok u := by
  by_cases hpath : req.path ∈ exclude_paths
  · simp [dispatch, hpath] at hmem
  · cases hauth : req.authorizationHeader with
    | none => simp [dispatch, hpath, hauth] at hmem
    | some hdr =>
      by_cases hb : pyStartsWith hdr "Bearer " = true
      · rcases hval : validate_token (extractToken hdr) env.validateNet with ⟨res, vcalls⟩
        cases res with
        | ok u2 =>
            simp [dispatch, hpath, hauth, hb, hval] at hmem
            exact ⟨hdr, rfl, by rw [hval, hmem]⟩
        | error e =>
            exfalso
            cases hdec : env.decodeClaims (extractToken hdr) with
            | none => simp [dispatch, hpath, hauth, hb, hval, hdec] at hmem
            | some claims =>
              by_cases hexp : "exp" ∈ claims
              · cases hcook : req.refreshCookie with
                | none =>
                    simp [dispatch, hpath, hauth, hb, hval, hdec, hexp, hcook] at hmem
                | some rt =>
                    rcases hr : refresh_token rt env.refreshNet with ⟨rres, rcalls⟩
                    cases rres with
                    | ok nt =>
                        simp [dispatch, hpath, hauth, hb, hval, hdec, hexp, hcook, hr] at hmem
                    | error e2 =>
                        simp [dispatch, hpath, hauth, hb, hval, hdec, hexp, hcook, hr] at hmem
              · simp [dispatch, hpath, hauth, hb, hval, hdec, hexp] at hmem
      · simp [dispatch, hpath, hauth, hb] at hmem

/-- Claim C4: when the bearer token validates successfully, the wrapped
handler runs exactly once with the returned UserInfo already attached to
the request state, the handler response is returned unmodified, and the
only issuer traffic is the validation call itself. -/
theorem c4_validate_success_runs_handler_once (env : DispatchEnv) (req : Request)
    (hdr : String) (u : UserInfo) (vcalls : List IssuerCall)
    (hpath : req.path ∉ exclude_paths)
    (hauth : req.authorizationHeader = some hdr)
    (hb : pyStartsWith hdr "Bearer " = true)
    (hval : validate_token (extractToken hdr) env.validateNet = (Except.ok u, vcalls)) :
    dispatch env req =
      { result := Except.ok env.handlerResponse, issuerCalls := vcalls,
        handlerRuns := [some u] } := by
  simp [dispatch, hpath, hauth, hb, hval]

/-- Witness for C4: concrete request with a valid token. -/
theorem c4_validate_success_runs_handler_once_witness :
    ("/predict" : String) ∉ exclude_paths ∧
    pyStartsWith "Bearer tok" "Bearer " = true ∧
    validate_token (extractToken "Bearer tok") validOkEnv.validateNet =
      (Except.ok aliceInfo, [IssuerCall.introspect "Bearer tok"]) ∧
    dispatch validOkEnv { path := "/predict", authorizationHeader := some "Bearer tok", refreshCookie := none } =
      { result := Except.ok validOkEnv.handlerResponse,
        issuerCalls := [IssuerCall.introspect "Bearer tok"],
        handlerRuns := [some aliceInfo] } :=
  ⟨by decide, by decide, by decide,
   c4_validate_success_runs_handler_once validOkEnv _ "Bearer tok" aliceInfo _
     (by decide) rfl (by decide) (by decide)⟩

/-- Claim C9: on the refresh-success path the wrapped handler runs with no
UserInfo attached to the request state (the single handler run records
`none`), and in general a handler run with a user attached occurs only on
the direct validation-success path. -/
theorem c9_refresh_success_runs_handler_without_user
    (env : DispatchEnv) (req : Request) (hdr : String) (e : HTTPError)
    (claims : List String) (rt : String) (newTokens : TokenPair)
    (vcalls rcalls : List IssuerCall)
    (hpath : req.path ∉ exclude_paths)
    (hauth : req.authorizationHeader = some hdr)
    (hb : pyStartsWith hdr "Bearer " = true)
    (hval : validate_token (extractToken hdr) env.validateNet = (Except.error e, vcalls))
    (hdec : env.decodeClaims (extractToken hdr) = some claims)
    (hexp : "exp" ∈ claims)
    (hcook : req.refreshCookie = some rt)
    (hr : refresh_token rt env.refreshNet = (Except.ok newTokens, rcalls)) :
    dispatch env req =
      { result := Except.ok
          { headers := setHeader env.handlerResponse.headers "Authorization"
              ("Bearer " ++ newTokens.access_token),
            cookies := env.handlerResponse.cookies ++
              [⟨"refresh_token", newTokens.refresh_token, true, true, "strict", none⟩],
            body := env.handlerResponse.body },
        issuerCalls := vcalls ++ rcalls, handlerRuns := [none] } ∧
    ∀ (env2 : DispatchEnv) (req2 : Request) (u : UserInfo),
      some u ∈ (dispatch env2 req2).handlerRuns →
      ∃ hdr2, req2.authorizationHeader = some hdr2 ∧
        (validate_token (extractToken hdr2) env2.validateNet).1 = Except.ok u := by
  constructor
  · simp [dispatch, hpath, hauth, hb, hval, hdec, hexp, hcook, hr]
  · exact handlerUser_of_dispatch

/-- Witness for C9: concrete expired-then-refreshed request. -/
theorem c9_refresh_success_runs_handler_without_user_witness :
    validate_token (extractToken "Bearer tok") refreshScenarioEnv.validateNet =
      (Except.error ⟨401, "Invalid or expired token"⟩, [IssuerCall.introspect "Bearer tok"]) ∧
    refreshScenarioEnv.decodeClaims (extractToken "Bearer tok") = some ["exp"] ∧
    refresh_token "oldref" refreshScenarioEnv.refreshNet =
      (Except.ok sampleTokens, [IssuerCall.refreshGrant "oldref"]) ∧
    dispatch refreshScenarioEnv
        { path := "/predict", authorizationHeader := some "Bearer tok",
          refreshCookie := some "oldref" } =
      { result := Except.ok
          { headers := setHeader refreshScenarioEnv.handlerResponse.headers "Authorization"
              ("Bearer " ++ sampleTokens.access_token),
            cookies := refreshScenarioEnv.handlerResponse.cookies ++
              [⟨"refresh_token", sampleTokens.refresh_token, true, true, "strict", none⟩],
            body := refreshScenarioEnv.handlerResponse.body },
        issuerCalls := [IssuerCall.introspect "Bearer tok", IssuerCall.refreshGrant "oldref"],
        handlerRuns := [none] } :=
  ⟨by decide, rfl, by decide,
   (c9_refresh_success_runs_handler_without_user refreshScenarioEnv _ "Bearer tok"
      ⟨401, "Invalid or expired token"⟩ ["exp"] "oldref" sampleTokens
      [IssuerCall.introspect "Bearer tok"] [IssuerCall.refreshGrant "oldref"]
      (by decide) rfl (by decide) (by decide) rfl (by decide) rfl (by decide)).1⟩

/-- A protected-path request with bearer header and refresh cookie. -/
def refreshReq : Request :=
  { path := "/predict", authorizationHeader := some "Bearer tok",
    refreshCookie := some "oldref" }

/-- Counterexample to claim C1: validation fails with a non-expiry error
(provider 503, surfaced by the client as a 500), yet the gate does enter
the refresh step — it issues a refresh-grant call — and the final result
is not the original validation failure. -/
theorem c1_counterexample_refresh_on_non_expiry :
    IssuerCall.refreshGrant "oldref" ∈ (dispatch badGatewayEnv refreshReq).issuerCalls ∧
    (dispatch badGatewayEnv refreshReq).result ≠
      Except.error ⟨500, "Token validation failed"⟩ := by
  decide

/-- Claim C1 as amended: after a validation failure of any class, the
refresh step is gated solely by the local decode — an undecodable token
yields 401 invalid-token-format (replacing the original error), decoded
claims without exp propagate the original validation failure unchanged
with no refresh call, and decoded claims with exp plus a present refresh
cookie lead to a refresh-grant call regardless of the validation error
class. -/
theorem c1_amended_refresh_gated_by_local_decode
    (env : DispatchEnv) (req : Request) (hdr : String) (e : HTTPError)
    (vcalls : List IssuerCall)
    (hpath : req.path ∉ exclude_paths)
    (hauth : req.authorizationHeader = some hdr)
    (hb : pyStartsWith hdr "Bearer " = true)
    (hval : validate_token (extractToken hdr) env.validateNet = (Except.error e, vcalls)) :
    (env.decodeClaims (extractToken hdr) = none →
      dispatch env req =
        { result := Except.error ⟨401, "Invalid token format"⟩,
          issuerCalls := vcalls, handlerRuns := [] }) ∧
    (∀ claims, env.decodeClaims (extractToken hdr) = some claims → "exp" ∉ claims →
      dispatch env req =
        { result := Except.error e, issuerCalls := vcalls, handlerRuns := [] }) ∧
    (∀ claims rt, env.decodeClaims (extractToken hdr) = some claims → "exp" ∈ claims →
      req.refreshCookie = some rt →
      IssuerCall.refreshGrant rt ∈ (dispatch env req).issuerCalls) := by
  refine ⟨?_, ?_, ?_⟩
  · intro hdec
    simp [dispatch, hpath, hauth, hb, hval, hdec]
  · intro claims hdec hexp
    simp [dispatch, hpath, hauth, hb, hval, hdec, hexp]
  · intro claims rt hdec hexp hcook
    rcases hr : refresh_token rt env.refreshNet with ⟨rres, rcalls⟩
    have hrc : rcalls = [IssuerCall.refreshGrant rt] := by
      have h2 := congrArg Prod.snd hr
      simp [refresh_token] at h2
      exact h2.symm
    subst hrc
    cases rres with
    | ok nt => simp [dispatch, hpath, hauth, hb, hval, hdec, hexp, hcook, hr]
    | error e2 => simp [dispatch, hpath, hauth, hb, hval, hdec, hexp, hcook, hr]

/-- Witness for amended C1: the refresh-grant call is made after a 401
validation failure on a token decoding with exp. -/
theorem c1_amended_refresh_gated_by_local_decode_witness :
    IssuerCall.refreshGrant "oldref" ∈
      (dispatch refreshScenarioEnv refreshReq).issuerCalls :=
  (c1_amended_refresh_gated_by_local_decode refreshScenarioEnv refreshReq "Bearer tok"
      ⟨401, "Invalid or expired token"⟩ [IssuerCall.introspect "Bearer tok"]
      (by decide) rfl (by decide) (by decide)).2.2
    ["exp"] "oldref" rfl (by decide) rfl

/-- Counterexample to claim C2: the in-gate refresh call times out, yet
the caller receives 401 "Token expired and refresh failed", not a 504. -/
theorem c2_counterexample_refresh_timeout_not_504 :
    (dispatch refreshTimeoutEnv refreshReq).result =
      Except.error ⟨401, "Token expired and refresh failed"⟩ ∧
    (401 : Nat) ≠ 504 := by
  decide

/-- Claim C2 as amended: each issuer-client operation maps a timed-out
outbound call to a 504 with a timeout message at the client boundary, but
when the timed-out call is the in-gate refresh, the gate converts that
504 into a 401 "Token expired and refresh failed" before it reaches the
caller. -/
theorem c2_amended_timeout_504_except_ingate_refresh
    (username password token rt : String)
    (env : DispatchEnv) (req : Request) (hdr : String) (e : HTTPError)
    (claims : List String) (vcalls : List IssuerCall) :
    authenticate_user username password NetOutcome.timeout =
      Except.error ⟨504, "Authentication request timed out"⟩ ∧
    (token ≠ "" → (validate_token token NetOutcome.timeout).1 =
      Except.error ⟨504, "Token validation request timed out"⟩) ∧
    (refresh_token rt NetOutcome.timeout).1 =
      Except.error ⟨504, "Token refresh request timed out"⟩ ∧
    (env.refreshNet = NetOutcome.timeout →
      req.path ∉ exclude_paths →
      req.authorizationHeader = some hdr →
      pyStartsWith hdr "Bearer " = true →
      validate_token (extractToken hdr) env.validateNet = (Except.error e, vcalls) →
      env.decodeClaims (extractToken hdr) = some claims →
      "exp" ∈ claims →
      req.refreshCookie = some rt →
      (dispatch env req).result =
        Except.error ⟨401, "Token expired and refresh failed"⟩) := by
  refine ⟨?_, ?_, ?_, ?_⟩
  · simp [authenticate_user]
  · intro h
    simp [validate_token, h]
  · simp [refresh_token]
  · intro hrt hpath hauth hb hval hdec hexp hcook
    simp [dispatch, hpath, hauth, hb, hval, hdec, hexp, hcook, hrt, refresh_token]

/-- Witness for amended C2: concrete timeouts on each operation and the
in-gate refresh-timeout conversion. -/
theorem c2_amended_timeout_504_except_ingate_refresh_witness :
    authenticate_user "u" "p" NetOutcome.timeout =
      Except.error ⟨504, "Authentication request timed out"⟩ ∧
    (validate_token "abc" NetOutcome.timeout).1 =
      Except.error ⟨504, "Token validation request timed out"⟩ ∧
    (refresh_token "oldref" NetOutcome.timeout).1 =
      Except.error ⟨504, "Token refresh request timed out"⟩ ∧
    (dispatch refreshTimeoutEnv refreshReq).result =
      Except.error ⟨401, "Token expired and refresh failed"⟩ :=
  let T := c2_amended_timeout_504_except_ingate_refresh "u" "p" "abc" "oldref"
    refreshTimeoutEnv refreshReq "Bearer tok" ⟨401, "Invalid or expired token"⟩
    ["exp"] [IssuerCall.introspect "Bearer tok"]
  ⟨T.1, T.2.1 (by decide), T.2.2.1,
   T.2.2.2 rfl (by decide) rfl (by decide) (by decide) rfl (by decide) rfl⟩

/-- Counterexample to claim C3: on a successful in-gate refresh the cookie
set on the response has no max-age at all, not the fixed 1800 of the
login cookie. -/
theorem c3_counterexample_refresh_cookie_has_no_max_age :
    (dispatch refreshScenarioEnv refreshReq).result =
      Except.ok
        { headers := [("Authorization", "Bearer newacc")],
          cookies := [⟨"refresh_token", "newref", true, true, "strict", none⟩],
          body := "ok" } ∧
    (none : Option Nat) ≠ some 1800 := by
  decide

/-- Claim C3 as amended: both refresh-token cookies are http-only, secure
and same-site-strict; the login cookie additionally carries max-age 1800,
while the in-gate refresh cookie is set with no max-age. -/
theorem c3_amended_cookie_flags
    (username password : String) (net : NetOutcome TokenPair) (tokens : TokenPair)
    (env : DispatchEnv) (req : Request) (hdr : String) (e : HTTPError)
    (claims : List String) (rt : String) (newTokens : TokenPair)
    (vcalls rcalls : List IssuerCall) :
    (authenticate_user username password net = Except.ok tokens →
      login username password net =
        Except.ok
          { body := tokens,
            cookies := [⟨"refresh_token", tokens.refresh_token,
                        true, true, "strict", some 1800⟩] }) ∧
    (req.path ∉ exclude_paths →
      req.authorizationHeader = some hdr →
      pyStartsWith hdr "Bearer " = true →
      validate_token (extractToken hdr) env.validateNet = (Except.error e, vcalls) →
      env.decodeClaims (extractToken hdr) = some claims →
      "exp" ∈ claims →
      req.refreshCookie = some rt →
      refresh_token rt env.refreshNet = (Except.ok newTokens, rcalls) →
      (dispatch env req).result =
        Except.ok
          { headers := setHeader env.handlerResponse.headers "Authorization"
              ("Bearer " ++ newTokens.access_token),
            cookies := env.handlerResponse.cookies ++
              [⟨"refresh_token", newTokens.refresh_token,
                true, true, "strict", none⟩],
            body := env.handlerResponse.body }) := by
  constructor
  · intro h
    simp [login, h]
  · intro hpath hauth hb hval hdec hexp hcook hr
    simp [dispatch, hpath, hauth, hb, hval, hdec, hexp, hcook, hr]

/-- Witness for amended C3: concrete login cookie and in-gate refresh
cookie. -/
theorem c3_amended_cookie_flags_witness :
    login "u" "p" (NetOutcome.response 200 "" sampleTokens) =
      Except.ok
        { body := sampleTokens,
          cookies := [⟨"refresh_token", sampleTokens.refresh_token,
                      true, true, "strict", some 1800⟩] } ∧
    (dispatch refreshScenarioEnv refreshReq).result =
      Except.ok
        { headers := setHeader refreshScenarioEnv.handlerResponse.headers "Authorization"
            ("Bearer " ++ sampleTokens.access_token),
          cookies := refreshScenarioEnv.handlerResponse.cookies ++
            [⟨"refresh_token", sampleTokens.refresh_token,
              true, true, "strict", none⟩],
          body := refreshScenarioEnv.handlerResponse.body } :=
  let T := c3_amended_cookie_flags "u" "p" (NetOutcome.response 200 "" sampleTokens)
    sampleTokens refreshScenarioEnv refreshReq "Bearer tok"
    ⟨401, "Invalid or expired token"⟩ ["exp"] "oldref" sampleTokens
    [IssuerCall.introspect "Bearer tok"] [IssuerCall.refreshGrant "oldref"]
  ⟨T.1 (by decide),
   T.2 (by decide) rfl (by decide) (by decide) rfl (by decide) rfl (by decide)⟩

/-- Helper: splitting a space-free field consumes it whole. -/
theorem splitSpacesAux_no_space :
    ∀ (a acc : List Char), spaceChar ∉ a →
      splitSpacesAux a acc = [acc.reverse ++ a]
  | [], acc, _ => by simp [splitSpacesAux]
  | c :: cs, acc, h => by
      have hc : ¬ c = spaceChar := fun hh => h (by simp [hh])
      simp only [splitSpacesAux, if_neg hc]
      rw [splitSpacesAux_no_space cs (c :: acc)
            (fun hm => h (List.mem_cons_of_mem _ hm))]
      simp

/-- Helper: splitting past a space-free field then a space emits the field
and continues fresh. -/
theorem splitSpacesAux_split :
    ∀ (a b acc : List Char), spaceChar ∉ a →
      splitSpacesAux (a ++ spaceChar :: b) acc =
        (acc.reverse ++ a) :: splitSpacesAux b []
  | [], _, acc, _ => by simp [splitSpacesAux]
  | c :: cs, b, acc, h => by
      have hc : ¬ c = spaceChar := fun hh => h (by simp [hh])
      simp only [List.cons_append, splitSpacesAux, if_neg hc, List.append_eq]
      rw [splitSpacesAux_split cs b (c :: acc)
            (fun hm => h (List.mem_cons_of_mem _ hm))]
      simp

/-- Counterexample to claim C6: with header Bearer a b, the token the gate
hands to validation is just the first space-delimited field a, not the
full remainder a b. -/
theorem c6_counterexample_token_stops_at_space :
    (dispatch validOkEnv
        { path := "/predict", authorizationHeader := some "Bearer a b",
          refreshCookie := none }).issuerCalls =
      [IssuerCall.introspect "Bearer a"] ∧
    extractToken "Bearer a b" ≠ "a b" := by
  decide

/-- Claim C6 as amended: the token extracted from a bearer header is the
first space-delimited field after the scheme word — everything after the
scheme up to the next space, or to the end of the header when the
remainder contains no space. -/
theorem c6_amended_token_is_first_field (a b : List Char) (h : spaceChar ∉ a) :
    extractToken (String.mk ("Bearer ".data ++ (a ++ spaceChar :: b))) = String.mk a ∧
    extractToken (String.mk ("Bearer ".data ++ a)) = String.mk a := by
  have h6 : spaceChar ∉ "Bearer".data := by decide
  have hBdata : "Bearer ".data = "Bearer".data ++ [spaceChar] := by decide
  constructor
  · have heq : "Bearer ".data ++ (a ++ spaceChar :: b) =
        "Bearer".data ++ (spaceChar :: (a ++ spaceChar :: b)) := by
      rw [hBdata, List.append_assoc]
      rfl
    show ((splitSpacesAux ("Bearer ".data ++ (a ++ spaceChar :: b)) []).map
        (fun cs => String.mk cs)).getD 1 "" = String.mk a
    rw [heq, splitSpacesAux_split _ _ _ h6, splitSpacesAux_split _ _ _ h]
    simp
  · have heq : "Bearer ".data ++ a = "Bearer".data ++ (spaceChar :: a) := by
      rw [hBdata, List.append_assoc]
      rfl
    show ((splitSpacesAux ("Bearer ".data ++ a) []).map
        (fun cs => String.mk cs)).getD 1 "" = String.mk a
    rw [heq, splitSpacesAux_split _ _ _ h6, splitSpacesAux_no_space _ _ h]
    simp

/-- Witness for amended C6 at the header Bearer a b. -/
theorem c6_amended_token_is_first_field_witness :
    extractToken (String.mk ("Bearer ".data ++ ([Char.ofNat 97] ++ spaceChar :: [Char.ofNat 98]))) =
      String.mk [Char.ofNat 97] ∧
    extractToken (String.mk ("Bearer ".data ++ [Char.ofNat 97])) = String.mk [Char.ofNat 97] :=
  c6_amended_token_is_first_field [Char.ofNat 97] [Char.ofNat 98] (by decide)

/-- Claim C7, evaluated at the failing input: the inference client itself
maps a provider 502 to a passthrough HTTPException, but the predict route
handler catches it and re-raises a 500, so the status the caller sees is
500, not the provider status (and likewise a connect failure or timeout
never surfaces as 503 or 504 at the route). -/
theorem c7_provider_status_clobbered_to_500 :
    rag_predict (some "key") (InferOutcome.response 502 "bad gateway" (0 : Nat)) =
      Except.error ⟨502, "Prediction failed with status 502: bad gateway"⟩ ∧
    predict_route (some "key") (InferOutcome.response 502 "bad gateway" (0 : Nat)) =
      Except.error ⟨500, "502: Prediction failed with status 502: bad gateway"⟩ ∧
    rag_predict (some "key") (InferOutcome.connectError "refused" : InferOutcome Nat) =
      Except.error ⟨503, "Failed to connect to Hugging Face API: refused"⟩ ∧
    predict_route (some "key") (InferOutcome.connectError "refused" : InferOutcome Nat) =
      Except.error ⟨500, "503: Failed to connect to Hugging Face API: refused"⟩ ∧
    rag_predict (some "key") (InferOutcome.timeout : InferOutcome Nat) =
      Except.error ⟨504, "Request to Hugging Face API timed out"⟩ ∧
    predict_route (some "key") (InferOutcome.timeout : InferOutcome Nat) =
      Except.error ⟨500, "504: Request to Hugging Face API timed out"⟩ ∧
    (500 : Nat) ≠ 502 := by
  decide

end RagService
